import Mathlib

/-!
Verification of the location/session/activity-search flow of the web
application (module `myproject/home/views.py` and
`myproject/ai_client/clients.py`).

Shallow embedding conventions:
* JSON values are modelled by the inductive `JValue`; a request body is an
  `Option JValue`, with `none` standing for a body that is not valid JSON
  (`json.loads` raising `JSONDecodeError`).
* Python numbers are modelled by `ℚ` (the code never relies on binary
  floating point rounding in any property checked here).
* The session is the single value stored under the key "coords": an
  `Option LocationRecord` (`none` = no record stored).  Records written by
  the code are never the empty dict, so Python dict truthiness of a stored
  record coincides with `Option.isSome`.
* External HTTP collaborators (Nominatim, Yelp, OpenAI) are modelled as
  explicit inputs describing the outcome of the call; the view functions
  are then pure functions of the request, the session and those outcomes.
-/

namespace Recreo

/-- A JSON value, as produced by `json.loads`. -/
inductive JValue where
  | jnull
  | jbool (b : Bool)
  | jnum (q : ℚ)
  | jstr (s : String)
  | jarr (elems : List JValue)
  | jobj (fields : List (String × JValue))

/-- Dictionary lookup `data[k]`: succeeds only on a JSON object having the
key (on any other shape Python raises `TypeError`/`KeyError`, both caught
uniformly by the caller; keys of a parsed object are unique). -/
def jlookup : JValue → String → Option JValue
  | .jobj fields, k => (fields.find? (fun p => p.1 = k)).map (fun p => p.2)
  | _, _ => none

/-- Python `str.strip()` with no argument: drop leading and trailing
whitespace characters. -/
def pyStripList (l : List Char) : List Char :=
  (((l.dropWhile Char.isWhitespace).reverse).dropWhile Char.isWhitespace).reverse

def pyStrip (s : String) : String :=
  String.mk (pyStripList s.toList)

/-- Python `str.upper()` (ASCII case mapping; no checked property involves
non-ASCII case folding). -/
def pyUpper (s : String) : String :=
  String.mk (s.toList.map Char.toUpper)

/-- Python `str.lower()` (ASCII case mapping). -/
def pyLower (s : String) : String :=
  String.mk (s.toList.map Char.toLower)

/-- Digits to a natural number (most significant first). -/
def natOfDigits (l : List Char) : Nat :=
  l.foldl (fun a c => a * 10 + (c.toNat - 48)) 0

def allDigits (l : List Char) : Bool :=
  l.all (fun c => c.isDigit)

/-- Mantissa part of a Python float literal: `digits`, `digits.digits`,
`.digits` or `digits.` (at least one digit in total). -/
def parseMantissa (l : List Char) : Option ℚ :=
  match l.span (fun c => c ≠ '.') with
  | (ip, []) =>
      if ip ≠ [] ∧ allDigits ip then some (natOfDigits ip) else none
  | (ip, _ :: fp) =>
      if (ip ≠ [] ∨ fp ≠ []) ∧ allDigits ip ∧ allDigits fp then
        some ((natOfDigits (ip ++ fp) : ℚ) / 10 ^ fp.length)
      else none

/-- Exponent part after `e`/`E`: optional sign then digits. -/
def parseExp (l : List Char) : Option Int :=
  match l with
  | [] => none
  | '+' :: r => if r ≠ [] ∧ allDigits r then some (natOfDigits r) else none
  | '-' :: r => if r ≠ [] ∧ allDigits r then some (-(natOfDigits r : Int)) else none
  | _ => if allDigits l then some (natOfDigits l) else none

def tenPow (e : Int) : ℚ :=
  if 0 ≤ e then (10 : ℚ) ^ e.toNat else 1 / (10 : ℚ) ^ (-e).toNat

/-- Python `float(s)` on a string: strip whitespace, optional sign,
mantissa, optional exponent.  (`inf`/`nan` are not representable in ℚ and
play no role in any property below; digit-group underscores are omitted.) -/
def pyFloatString (s : String) : Option ℚ :=
  let l0 := pyStripList s.toList
  let sgn : ℚ := match l0 with
    | '-' :: _ => -1
    | _ => 1
  let l1 : List Char := match l0 with
    | '+' :: r => r
    | '-' :: r => r
    | _ => l0
  match l1.span (fun c => c ≠ 'e' ∧ c ≠ 'E') with
  | (m, []) => (parseMantissa m).map (fun q => sgn * q)
  | (m, _ :: e) => do
      let qm ← parseMantissa m
      let qe ← parseExp e
      pure (sgn * qm * tenPow qe)

/-- Python `float(x)` on a decoded JSON value: numbers pass through,
booleans coerce (`float(True) = 1.0`), numeric strings parse, and
`None`/lists/dicts raise (`TypeError`), non-numeric strings raise
(`ValueError`) — modelled as `none`. -/
def pyFloat : JValue → Option ℚ
  | .jnum q => some q
  | .jbool b => some (if b then 1 else 0)
  | .jstr s => pyFloatString s
  | _ => none

/-- The session's "coords" record: a dict with optional lat/lon/city/state
fields (the two save paths store different subsets). -/
structure LocationRecord where
  lat : Option ℚ
  lon : Option ℚ
  city : Option String
  state : Option String
deriving DecidableEq, Repr

/-- The `address` object of a Nominatim reverse-geocode response (fields
the code reads; a missing field is `none`). -/
structure Address where
  city : Option String
  town : Option String
  village : Option String
  state : Option String
  region : Option String
deriving DecidableEq, Repr

/-- Outcome of the reverse-geocode HTTP call.  `err` covers every
`requests.RequestException`: transport errors, timeouts, and non-2xx
statuses (turned into `HTTPError` by `raise_for_status`). -/
inductive GeoResult where
  | ok (a : Address)
  | err
deriving DecidableEq, Repr

/-- Python `x or y` on optional strings: `None` and `""` are falsy. -/
def orFalsy : Option String → Option String → Option String
  | some s, b => if s = "" then b else some s
  | none, b => b

/-- Python `x or d` with a string default. -/
def orFalsyD (a : Option String) (d : String) : String :=
  match a with
  | some s => if s = "" then d else s
  | none => d

/-- `reverse_geocode(lat, lon)` (views.py:28-44): on any request failure
return the sentinel pair; otherwise resolve city (city, then town, then
village) and state (state, then region) with defaults.  The lat/lon
arguments only build the outbound query, so the model takes the call
outcome directly. -/
def reverse_geocode (r : GeoResult) : String × String :=
  match r with
  | .err => ("Unknown City", "Unknown State")
  | .ok a =>
      (orFalsyD (orFalsy (orFalsy a.city a.town) a.village) "Unknown City",
       orFalsyD (orFalsy a.state a.region) "Unknown State")

/-- The JSON response of `save_location`. -/
structure SaveResponse where
  status : Nat
  ok : Bool
  error : Option String
  coords : Option LocationRecord
deriving DecidableEq, Repr

/-- The body-parsing prefix of `save_location` (views.py:50-54):
`json.loads`, then `float(data["lat"])`, then `float(data["lon"])`;
`none` iff any step raises one of the four caught exceptions. -/
def parseBody (body : Option JValue) : Option (ℚ × ℚ) :=
  match body with
  | none => none
  | some j =>
      match jlookup j "lat" with
      | none => none
      | some latv =>
          match pyFloat latv with
          | none => none
          | some lat =>
              match jlookup j "lon" with
              | none => none
              | some lonv =>
                  match pyFloat lonv with
                  | none => none
                  | some lon => some (lat, lon)

/-- `save_location` (views.py:47-59): parse and coerce the body; on failure
return a 400 with a uniform error and leave the session alone; on success
reverse-geocode, store `{lat, lon, city, state}` and echo it with a 200.
Returns (response, new session). -/
def save_location (body : Option JValue) (geo : GeoResult)
    (sess : Option LocationRecord) : SaveResponse × Option LocationRecord :=
  match parseBody body with
  | none => (⟨400, false, some "Invalid data", none⟩, sess)
  | some (lat, lon) =>
      let cs := reverse_geocode geo
      let r : LocationRecord := ⟨some lat, some lon, some cs.1, some cs.2⟩
      (⟨200, true, none, some r⟩, some r)

/-- `index` (views.py:14-18): renders with `request.session.get("coords")`;
the read-back of the stored record. -/
def index (sess : Option LocationRecord) : Option LocationRecord :=
  sess

/-- Where a view redirects to. -/
inductive Redirect where
  | toIndex
  | toActivities
deriving DecidableEq, Repr

/-- `save_text_location` (views.py:62-76): trim the form fields (missing
field → `""`), uppercase the state; if either is empty (Python truthiness
of `city and state`) redirect to the index leaving the session alone;
otherwise forward-geocode and store `{city, state, lat, lon}` or
`{city, state}`, then redirect to activities.  `geo` is the result of
`geocode_city_state` (views.py:84-107): `none` models its `(None, None)`
on request failure or empty result list, `some` the first result's
coordinates (the function returns both or neither). -/
def save_text_location (cityField stateField : Option String)
    (geo : Option (ℚ × ℚ)) (sess : Option LocationRecord) :
    Redirect × Option LocationRecord :=
  let city := pyStrip (cityField.getD "")
  let state := pyUpper (pyStrip (stateField.getD ""))
  if city = "" ∨ state = "" then
    (.toIndex, sess)
  else
    match geo with
    | some (lat, lon) =>
        (.toActivities, some ⟨some lat, some lon, some city, some state⟩)
    | none =>
        (.toActivities, some ⟨none, none, some city, some state⟩)

/-- Round half to even (Python's `round` tie-breaking). -/
def roundHalfEven (q : ℚ) : ℤ :=
  let f := ⌊q⌋
  let r := q - f
  if r < 1/2 then f
  else if 1/2 < r then f + 1
  else if f % 2 = 0 then f else f + 1

/-- `meters_to_miles` (views.py:79-81): `round(meters * 0.000621371, 2)`
(modelled over ℚ; the binary-float representation error of the constant is
immaterial to every property below). -/
def meters_to_miles (meters : ℚ) : ℚ :=
  (roundHalfEven (meters * (621371 / 1000000000) * 100) : ℚ) / 100

/-- One business object of a Yelp search response (the fields the code
reads; a missing key is `none`). -/
structure Business where
  name : Option String
  distance : Option ℚ
  rating : Option ℚ
  categories : List String
  addr1 : Option String
  addrCity : Option String
  latc : Option ℚ
  lonc : Option ℚ
  is_closed : Option Bool
  phone : Option String
  review_count : Option Nat
  image_url : Option String
  yelp_url : Option String
  zip_code : Option String
  price : Option String
deriving DecidableEq, Repr

/-- Outcome of a Yelp search call: HTTP status and (when 200) the parsed
`businesses` list. -/
structure SearchResponse where
  status_code : Nat
  businesses : List Business
deriving Repr

/-- Python truthiness of `coords.get("lat")`: present and nonzero. -/
def truthyNum : Option ℚ → Bool
  | none => false
  | some q => decide (q ≠ 0)

/-- Python truthiness of `coords.get("city")`: present and nonempty. -/
def truthyStr : Option String → Bool
  | none => false
  | some s => decide (s ≠ "")

/-- `", ".join(filter(None, [address1, city]))`: drop falsy parts. -/
def joinLoc (a c : Option String) : String :=
  String.intercalate ", " (([a, c].filterMap id).filter (fun s => s ≠ ""))

/-- The activity record built by `activities_page` (views.py:167-188). -/
structure Activity where
  name : String
  description : String
  location : String
  distance_miles : ℚ
  lat : ℚ
  lon : ℚ
  rating : ℚ
  is_closed : Option Bool
deriving DecidableEq, Repr

def mapActivity (b : Business) : Activity :=
  ⟨b.name.getD "Unnamed",
   String.intercalate ", " b.categories,
   joinLoc b.addr1 b.addrCity,
   meters_to_miles (b.distance.getD 0),
   b.latc.getD 0,
   b.lonc.getD 0,
   b.rating.getD 0,
   b.is_closed⟩

/-- The lazy backfill step of `activities_page` (views.py:120-130): when a
record exists whose lat/lon are not both truthy but whose city/state are,
forward-geocode and, on success, write the coordinates back into the record
and the session.  Returns (coords used afterwards, session afterwards). -/
def backfillStep (sess : Option LocationRecord) (geo : Option (ℚ × ℚ)) :
    Option LocationRecord × Option LocationRecord :=
  match sess with
  | none => (none, none)
  | some c =>
      if ¬(truthyNum c.lat ∧ truthyNum c.lon) ∧
          truthyStr c.city ∧ truthyStr c.state then
        match geo with
        | some (lat, lon) =>
            let c2 : LocationRecord := { c with lat := some lat, lon := some lon }
            (some c2, some c2)
        | none => (some c, some c)
      else (some c, some c)

/-- The per-business minimum-rating test (views.py:162-165): skip a
business iff `min_rating` is truthy and `rating < float(min_rating)`, with
`rating = business.get("rating", 0)`.  `minRating = none` models an absent
or empty parameter (falsy string); a supplied parameter is its numeric
value. -/
def passesRating (minRating : Option ℚ) (b : Business) : Bool :=
  match minRating with
  | none => true
  | some t => !decide (b.rating.getD 0 < t)

/-- `activities_page` (views.py:110-205): backfill coordinates, then — only
when lat and lon are truthy — run the Yelp search and map each business
passing the rating filter to an `Activity`; on a non-200 status or missing
coordinates the list stays empty.  Returns (activities, session
afterwards).  The construction of the outbound query (categories default,
radius, open-now flag) only shapes the external call and is absorbed into
the `search` outcome. -/
def activities_page (sess : Option LocationRecord) (minRating : Option ℚ)
    (geo : Option (ℚ × ℚ)) (search : SearchResponse) :
    List Activity × Option LocationRecord :=
  let st := backfillStep sess geo
  let acts :=
    match st.1 with
    | none => []
    | some c =>
        if truthyNum c.lat ∧ truthyNum c.lon then
          if search.status_code = 200 then
            search.businesses.filterMap (fun b =>
              if passesRating minRating b then some (mapActivity b) else none)
          else []
        else []
  (acts, st.2)

/-- Value of a hex digit, if any. -/
def hexVal (c : Char) : Option Nat :=
  if c.isDigit then some (c.toNat - 48)
  else if 'a' ≤ c ∧ c ≤ 'f' then some (c.toNat - 87)
  else if 'A' ≤ c ∧ c ≤ 'F' then some (c.toNat - 55)
  else none

/-- `urllib.parse.unquote` restricted to single-byte escapes: `%hh` with
two hex digits decodes to the corresponding character, anything else is
kept verbatim (in particular `+` is NOT decoded — that is `unquote_plus`).
Multi-byte UTF-8 escape sequences are outside the scope of the checked
properties. -/
def pyUnquoteGo : Nat → List Char → List Char
  | _, [] => []
  | 0, l => l
  | fuel + 1, c :: rest =>
      if c = '%' then
        match rest with
        | a :: b :: rest2 =>
            match hexVal a, hexVal b with
            | some x, some y => Char.ofNat (16 * x + y) :: pyUnquoteGo fuel rest2
            | _, _ => c :: pyUnquoteGo fuel rest
        | _ => c :: pyUnquoteGo fuel rest
      else c :: pyUnquoteGo fuel rest

def pyUnquote (s : String) : String :=
  String.mk (pyUnquoteGo s.toList.length s.toList)

/-- Outcome of one OpenAI chat-completion call: the returned message
content, or the exception raised (`str(e)`). -/
inductive AIResult where
  | ok (content : String)
  | err (msg : String)
deriving DecidableEq, Repr

/-- `generate_activity_description` (ai_client/clients.py:7-17): on success
the stripped message content; on any exception the string
`"Description unavailable: "` followed by the exception text.  The prompt
is built from the activity name, so the model keys the call outcome by
name. -/
def generate_activity_description (r : AIResult) : String :=
  match r with
  | .ok content => pyStrip content
  | .err msg => "Description unavailable: " ++ msg

/-- The detail record built by `activity_detail` (views.py:240-267). -/
structure DetailActivity where
  name : String
  description : String
  location : String
  distance_miles : ℚ
  phone : Option String
  rating : Option ℚ
  review_count : Option Nat
  image_url : Option String
  yelp_url : Option String
  zip_code : Option String
  price : Option String
  is_closed : Option Bool
  lat : ℚ
  lon : ℚ
  ai_description : String
deriving DecidableEq, Repr

/-- Map one business to its detail record, including the AI description
requested for it (views.py:240-267); `ai` gives the outcome of the OpenAI
call keyed by the business name used in the prompt. -/
def mapDetail (ai : String → AIResult) (b : Business) : DetailActivity :=
  ⟨b.name.getD "Unnamed",
   String.intercalate ", " b.categories,
   joinLoc b.addr1 b.addrCity,
   meters_to_miles (b.distance.getD 0),
   b.phone,
   b.rating,
   b.review_count,
   b.image_url,
   b.yelp_url,
   b.zip_code,
   b.price,
   b.is_closed,
   b.latc.getD 0,
   b.lonc.getD 0,
   generate_activity_description (ai (b.name.getD "Unnamed"))⟩

/-- `activity_detail` (views.py:210-280): URL-decode, trim and lowercase
the path segment; when the session has truthy coordinates and the search
succeeds, build the detail record of every returned business and select
the first whose trimmed lowercased name equals the decoded name; otherwise
(no/non-truthy coordinates, failed search, or no match) render with no
activity (`none` = the "not found" state). -/
def activity_detail (name : String) (sess : Option LocationRecord)
    (search : SearchResponse) (ai : String → AIResult) :
    Option DetailActivity :=
  let name_decoded := pyLower (pyStrip (pyUnquote name))
  match sess with
  | none => none
  | some c =>
      if truthyNum c.lat ∧ truthyNum c.lon then
        if search.status_code = 200 then
          ((search.businesses.map (mapDetail ai)).find?
            (fun a => pyLower (pyStrip a.name) = name_decoded))
        else none
      else none

/-- The names for which `activity_detail` invokes
`generate_activity_description`: the call sits inside the loop over all
returned businesses (views.py:238-268), before the name match is computed,
so every fetched business triggers one call. -/
def activity_detail_ai_calls (sess : Option LocationRecord)
    (search : SearchResponse) : List String :=
  match sess with
  | none => []
  | some c =>
      if truthyNum c.lat ∧ truthyNum c.lon then
        if search.status_code = 200 then
          search.businesses.map (fun b => b.name.getD "Unnamed")
        else []
      else []

/-! ## Helper definitions and lemmas for the claims -/

/-- The failure causes enumerated by the spec for the coordinate validator:
malformed JSON, a missing `lat`/`lon` key (including non-object bodies),
or a value (null, container, or non-numeric string) that `float` rejects. -/
def invalidBody (body : Option JValue) : Prop :=
  body = none ∨
  ∃ j, body = some j ∧
    (jlookup j "lat" = none ∨
     (∃ v, jlookup j "lat" = some v ∧ pyFloat v = none) ∨
     jlookup j "lon" = none ∨
     (∃ v, jlookup j "lon" = some v ∧ pyFloat v = none))

theorem parseBody_eq_none_of_invalid (body : Option JValue)
    (h : invalidBody body) : parseBody body = none := by
  rcases h with h | ⟨j, hj, hcase⟩
  · subst h; rfl
  · subst hj
    rcases hcase with h1 | ⟨v, hv, hpf⟩ | h3 | ⟨v, hv, hpf⟩
    · simp [parseBody, h1]
    · simp [parseBody, hv, hpf]
    · cases hl : jlookup j "lat" with
      | none => simp [parseBody, hl]
      | some v0 =>
          cases hf : pyFloat v0 with
          | none => simp [parseBody, hl, hf]
          | some q => simp [parseBody, hl, hf, h3]
    · cases hl : jlookup j "lat" with
      | none => simp [parseBody, hl]
      | some v0 =>
          cases hf : pyFloat v0 with
          | none => simp [parseBody, hl, hf]
          | some q => simp [parseBody, hl, hf, hv, hpf]

/-- `filterMap` with a guarded map is filter-then-map. -/
theorem filterMap_guard_eq {α β : Type} (p : α → Bool) (f : α → β)
    (l : List α) :
    l.filterMap (fun a => if p a then some (f a) else none) =
      (l.filter p).map f := by
  induction l with
  | nil => rfl
  | cons a l ih =>
      by_cases h : p a <;>
        simp [List.filterMap_cons, List.filter_cons, h, ih]

/-! ## Claims -/

/-- Claim C1: a POST body that is malformed JSON, lacks `lat` or `lon`, or
carries a null or non-float-convertible value for either key makes
`save_location` return the uniform 400 response
`{ok: false, error: "Invalid data"}` (never a 500, which totality of the
model gives) and leaves the session's coords record unchanged. -/
theorem save_location_invalid_uniform (body : Option JValue)
    (geo : GeoResult) (sess : Option LocationRecord)
    (h : invalidBody body) :
    save_location body geo sess =
      (⟨400, false, some "Invalid data", none⟩, sess) := by
  have hp : parseBody body = none := parseBody_eq_none_of_invalid body h
  simp [save_location, hp]

theorem save_location_invalid_uniform_witness :
    invalidBody (some (JValue.jobj [("lat", JValue.jnull), ("lon", JValue.jnum 5)])) ∧
    save_location (some (JValue.jobj [("lat", JValue.jnull), ("lon", JValue.jnum 5)]))
        GeoResult.err (some ⟨some 1, some 2, some "Denver", some "CO"⟩) =
      (⟨400, false, some "Invalid data", none⟩,
       some ⟨some 1, some 2, some "Denver", some "CO"⟩) := by
  have h : invalidBody
      (some (JValue.jobj [("lat", JValue.jnull), ("lon", JValue.jnum 5)])) :=
    Or.inr ⟨_, rfl, Or.inr (Or.inl ⟨JValue.jnull, rfl, rfl⟩)⟩
  exact ⟨h, save_location_invalid_uniform _ _ _ h⟩

/-- Claim C2: a body whose `lat` and `lon` coerce to floats makes
`save_location` return status 200 with `ok = true`, coords echoing exactly
the coerced values (city/state from the reverse geocode), and the same
record is stored in the session. -/
theorem save_location_valid_roundtrip (body : Option JValue)
    (geo : GeoResult) (sess : Option LocationRecord) (lat lon : ℚ)
    (h : parseBody body = some (lat, lon)) :
    (save_location body geo sess).1.status = 200 ∧
    (save_location body geo sess).1.ok = true ∧
    (save_location body geo sess).1.error = none ∧
    (save_location body geo sess).1.coords =
      some ⟨some lat, some lon, some (reverse_geocode geo).1,
            some (reverse_geocode geo).2⟩ ∧
    (save_location body geo sess).2 = (save_location body geo sess).1.coords := by
  simp [save_location, h]

theorem save_location_valid_roundtrip_witness :
    parseBody (some (JValue.jobj [("lat", JValue.jnum 90), ("lon", JValue.jnum (-180))]))
      = some (90, -180) ∧
    (save_location (some (JValue.jobj [("lat", JValue.jnum 90), ("lon", JValue.jnum (-180))]))
        (GeoResult.ok ⟨some "Colorado Springs", none, none, some "Colorado", none⟩)
        none).2 =
      some ⟨some 90, some (-180), some "Colorado Springs", some "Colorado"⟩ := by
  constructor
  · rfl
  · have h := save_location_valid_roundtrip
      (some (JValue.jobj [("lat", JValue.jnum 90), ("lon", JValue.jnum (-180))]))
      (GeoResult.ok ⟨some "Colorado Springs", none, none, some "Colorado", none⟩)
      none 90 (-180) rfl
    rw [h.2.2.2.2, h.2.2.2.1]
    rfl

/-- Claim C3: when the reverse-geocode call fails (transport error,
timeout, or non-success status — all raising `requests.RequestException`),
`save_location` on a valid body still succeeds with status 200 and stores
the record with the sentinel city "Unknown City" and state "Unknown
State". -/
theorem save_location_geo_failure_ok (body : Option JValue)
    (sess : Option LocationRecord) (lat lon : ℚ)
    (h : parseBody body = some (lat, lon)) :
    (save_location body GeoResult.err sess).1.status = 200 ∧
    (save_location body GeoResult.err sess).1.ok = true ∧
    (save_location body GeoResult.err sess).2 =
      some ⟨some lat, some lon, some "Unknown City", some "Unknown State"⟩ := by
  simp [save_location, h, reverse_geocode]

theorem save_location_geo_failure_ok_witness :
    parseBody (some (JValue.jobj [("lat", JValue.jnum (77/2)), ("lon", JValue.jnum (-104))]))
      = some (77/2, -104) ∧
    (save_location (some (JValue.jobj [("lat", JValue.jnum (77/2)), ("lon", JValue.jnum (-104))]))
        GeoResult.err none).2 =
      some ⟨some (77/2), some (-104), some "Unknown City", some "Unknown State"⟩ := by
  constructor
  · rfl
  · exact (save_location_geo_failure_ok
      (some (JValue.jobj [("lat", JValue.jnum (77/2)), ("lon", JValue.jnum (-104))]))
      none (77/2) (-104) rfl).2.2

/-- Claim C4: `save_text_location` with a blank trimmed city or state
leaves the session untouched and redirects to the index; otherwise it
overwrites the record with the trimmed city and trimmed uppercased state,
adds lat/lon exactly when forward geocoding returned coordinates, and
always redirects to the activities listing. -/
theorem save_text_location_behavior (cityField stateField : Option String)
    (geo : Option (ℚ × ℚ)) (sess : Option LocationRecord) :
    (pyStrip (cityField.getD "") = "" ∨ pyUpper (pyStrip (stateField.getD "")) = "" →
      save_text_location cityField stateField geo sess = (Redirect.toIndex, sess)) ∧
    (pyStrip (cityField.getD "") ≠ "" → pyUpper (pyStrip (stateField.getD "")) ≠ "" →
      (save_text_location cityField stateField geo sess).1 = Redirect.toActivities ∧
      (∀ lat lon, geo = some (lat, lon) →
        (save_text_location cityField stateField geo sess).2 =
          some ⟨some lat, some lon, some (pyStrip (cityField.getD "")),
                some (pyUpper (pyStrip (stateField.getD "")))⟩) ∧
      (geo = none →
        (save_text_location cityField stateField geo sess).2 =
          some ⟨none, none, some (pyStrip (cityField.getD "")),
                some (pyUpper (pyStrip (stateField.getD "")))⟩)) := by
  constructor
  · intro h
    simp only [save_text_location]
    rw [if_pos h]
  · intro hc hs
    have hcond : ¬(pyStrip (cityField.getD "") = "" ∨
        pyUpper (pyStrip (stateField.getD "")) = "") := by
      push_neg
      exact ⟨hc, hs⟩
    refine ⟨?_, ?_, ?_⟩
    · simp only [save_text_location]
      rw [if_neg hcond]
      cases geo with
      | none => rfl
      | some p => cases p with
        | mk lat lon => rfl
    · intro lat lon hg
      subst hg
      simp only [save_text_location]
      rw [if_neg hcond]
    · intro hg
      subst hg
      simp only [save_text_location]
      rw [if_neg hcond]

theorem save_text_location_behavior_witness :
    pyStrip ((some "  Denver " : Option String).getD "") ≠ "" ∧
    pyUpper (pyStrip ((some " co " : Option String).getD "")) ≠ "" ∧
    save_text_location (some "  Denver ") (some " co ")
        (some (39, -104)) none =
      (Redirect.toActivities, some ⟨some 39, some (-104), some "Denver", some "CO"⟩) := by
  have h := (save_text_location_behavior (some "  Denver ") (some " co ")
      (some (39, -104)) none).2 (by decide) (by decide)
  refine ⟨by decide, by decide, ?_⟩
  have h2 := h.2.1 39 (-104) rfl
  have h1 := h.1
  cases he : save_text_location (some "  Denver ") (some " co ") (some (39, -104)) none with
  | mk r s =>
      rw [he] at h1 h2
      simp at h1 h2
      rw [h1, h2]
      rfl

/-- Claim C5: the activities page on a session with no stored location
record renders an empty activity list (and stores nothing), for every
filter value, geocode outcome and search outcome — no error path exists. -/
theorem activities_page_no_record_empty (minRating : Option ℚ)
    (geo : Option (ℚ × ℚ)) (search : SearchResponse) :
    (activities_page none minRating geo search).1 = [] ∧
    (activities_page none minRating geo search).2 = none := by
  simp [activities_page, backfillStep]

/-- Claim C6: saving a location then reading the session back yields the
saved lat/lon exactly; a second save with a different body replaces the
record entirely — every field of the stored record after the second save
is determined by the second request alone, so nothing of the first record
survives. -/
theorem session_save_read_overwrite (b1 b2 : Option JValue)
    (g1 g2 : GeoResult) (s0 : Option LocationRecord)
    (la1 lo1 la2 lo2 : ℚ)
    (h1 : parseBody b1 = some (la1, lo1))
    (h2 : parseBody b2 = some (la2, lo2)) :
    (index (save_location b1 g1 s0).2).map LocationRecord.lat = some (some la1) ∧
    (index (save_location b1 g1 s0).2).map LocationRecord.lon = some (some lo1) ∧
    (save_location b2 g2 (save_location b1 g1 s0).2).2 =
      some ⟨some la2, some lo2, some (reverse_geocode g2).1,
            some (reverse_geocode g2).2⟩ := by
  simp [save_location, index, h1, h2]

theorem session_save_read_overwrite_witness :
    parseBody (some (JValue.jobj [("lat", JValue.jnum 10), ("lon", JValue.jnum 20)]))
      = some (10, 20) ∧
    parseBody (some (JValue.jobj [("lat", JValue.jnum 30), ("lon", JValue.jnum 40)]))
      = some (30, 40) ∧
    (save_location (some (JValue.jobj [("lat", JValue.jnum 30), ("lon", JValue.jnum 40)]))
        GeoResult.err
        (save_location (some (JValue.jobj [("lat", JValue.jnum 10), ("lon", JValue.jnum 20)]))
          (GeoResult.ok ⟨some "Denver", none, none, some "Colorado", none⟩) none).2).2 =
      some ⟨some 30, some 40, some "Unknown City", some "Unknown State"⟩ := by
  refine ⟨rfl, rfl, ?_⟩
  exact (session_save_read_overwrite
    (some (JValue.jobj [("lat", JValue.jnum 10), ("lon", JValue.jnum 20)]))
    (some (JValue.jobj [("lat", JValue.jnum 30), ("lon", JValue.jnum 40)]))
    (GeoResult.ok ⟨some "Denver", none, none, some "Colorado", none⟩)
    GeoResult.err none 10 20 30 40 rfl rfl).2.2

/-- Claim C7: with truthy stored coordinates, a successful search, and a
supplied numeric `min_rating` threshold, the rendered activity list is
exactly the fetched businesses whose rating (defaulting to 0) is not
strictly below the threshold, mapped to activity records — so every
returned business strictly below the threshold is excluded and every one
at or above it is included; the search outcome `bs` is quantified
independently of the threshold, reflecting that filtering happens after
fetching, not via the provider. -/
theorem activities_min_rating_filtering (c : LocationRecord) (t : ℚ)
    (geo : Option (ℚ × ℚ)) (bs : List Business)
    (hlat : truthyNum c.lat = true) (hlon : truthyNum c.lon = true) :
    (activities_page (some c) (some t) geo ⟨200, bs⟩).1 =
      (bs.filter (fun b => !decide (b.rating.getD 0 < t))).map mapActivity ∧
    (∀ b ∈ bs, t ≤ b.rating.getD 0 →
      mapActivity b ∈ (activities_page (some c) (some t) geo ⟨200, bs⟩).1) := by
  have hmain :
      (activities_page (some c) (some t) geo ⟨200, bs⟩).1 =
        (bs.filter (fun b => !decide (b.rating.getD 0 < t))).map mapActivity := by
    simp only [activities_page, backfillStep, hlat, hlon]
    simp only [not_true_eq_false, false_and, true_and, and_true, and_self,
      if_false, if_true, ite_true, ite_false, reduceIte]
    rw [filterMap_guard_eq (passesRating (some t)) mapActivity bs]
    rw [if_pos (And.intro hlat hlon)]
    rfl
  refine ⟨hmain, fun b hb hr => ?_⟩
  rw [hmain]
  exact List.mem_map_of_mem mapActivity
    (List.mem_filter.mpr ⟨hb, by simp [not_lt.mpr hr]⟩)

theorem activities_min_rating_filtering_witness :
    truthyNum (some 39 : Option ℚ) = true ∧
    (activities_page
        (some ⟨some 39, some (-104), some "Denver", some "CO"⟩) (some 4) none
        ⟨200,
         [⟨some "Low Park", some 100, some 3, ["Parks"], none, none, some 1,
           some 1, some false, none, none, none, none, none, none⟩,
          ⟨some "High Park", some 200, some 5, ["Parks"], none, none, some 1,
           some 1, some false, none, none, none, none, none, none⟩]⟩).1.map
      Activity.name = ["High Park"] := by
  constructor
  · decide
  · have h := (activities_min_rating_filtering
      ⟨some 39, some (-104), some "Denver", some "CO"⟩ 4 none
      [⟨some "Low Park", some 100, some 3, ["Parks"], none, none, some 1,
        some 1, some false, none, none, none, none, none, none⟩,
       ⟨some "High Park", some 200, some 5, ["Parks"], none, none, some 1,
        some 1, some false, none, none, none, none, none, none⟩]
      (by decide) (by decide)).1
    rw [h]
    rfl

/-- Claim C8: with truthy stored coordinates and a successful search,
`activity_detail` selects the mapped record of the first fetched business
whose trimmed lowercased name equals the URL-decoded, trimmed, lowercased
path segment; when no fetched business matches, the result is the
"not found" state (`none`) rather than an error. -/
theorem activity_detail_first_match (name : String) (c : LocationRecord)
    (bs : List Business) (ai : String → AIResult)
    (hlat : truthyNum c.lat = true) (hlon : truthyNum c.lon = true) :
    activity_detail name (some c) ⟨200, bs⟩ ai =
      (bs.find? (fun b =>
        pyLower (pyStrip (b.name.getD "Unnamed")) =
          pyLower (pyStrip (pyUnquote name)))).map (mapDetail ai) ∧
    ((∀ b ∈ bs, pyLower (pyStrip (b.name.getD "Unnamed")) ≠
        pyLower (pyStrip (pyUnquote name))) →
      activity_detail name (some c) ⟨200, bs⟩ ai = none) := by
  have hmain : activity_detail name (some c) ⟨200, bs⟩ ai =
      (bs.find? (fun b =>
        pyLower (pyStrip (b.name.getD "Unnamed")) =
          pyLower (pyStrip (pyUnquote name)))).map (mapDetail ai) := by
    simp only [activity_detail, hlat, hlon]
    simp only [and_self, true_and, and_true, if_true, ite_true, reduceIte]
    rw [List.find?_map]
    rfl
  refine ⟨hmain, fun hnone => ?_⟩
  rw [hmain]
  rw [List.find?_eq_none.mpr (fun b hb => by simp [hnone b hb])]
  rfl

theorem activity_detail_first_match_witness :
    truthyNum (some 1 : Option ℚ) = true ∧
    (activity_detail "Garden%20Park" (some ⟨some 1, some 2, none, none⟩)
        ⟨200,
         [⟨some " garden PARK ", some 100, some 4, ["Parks"], none, none,
           some 1, some 1, some false, none, none, none, none, none, none⟩]⟩
        (fun _ => AIResult.err "down")).map DetailActivity.name =
      some " garden PARK " ∧
    activity_detail "Garden%20Park" (some ⟨some 1, some 2, none, none⟩)
        ⟨200, []⟩ (fun _ => AIResult.err "down") = none := by
  refine ⟨by decide, ?_, ?_⟩
  · have h := (activity_detail_first_match "Garden%20Park"
      ⟨some 1, some 2, none, none⟩
      [⟨some " garden PARK ", some 100, some 4, ["Parks"], none, none,
        some 1, some 1, some false, none, none, none, none, none, none⟩]
      (fun _ => AIResult.err "down") (by decide) (by decide)).1
    rw [h]
    rfl
  · exact (activity_detail_first_match "Garden%20Park"
      ⟨some 1, some 2, none, none⟩ [] (fun _ => AIResult.err "down")
      (by decide) (by decide)).2 (by intro b hb; cases hb)

/-- A concrete business used to exercise the detail page. -/
def demoBiz1 : Business :=
  ⟨some "Alpha Park", some 100, some 4, ["Parks"], none, none, some 1, some 1,
   some false, none, none, none, none, none, none⟩

def demoBiz2 : Business :=
  ⟨some "Beta Trail", some 200, some 5, ["Hiking"], none, none, some 1, some 1,
   some false, none, none, none, none, none, none⟩

def demoCoords : LocationRecord :=
  ⟨some 1, some 2, some "Denver", some "CO"⟩

/-- Claim C9 counterexample: on a detail request matching only the first of
two fetched businesses, `generate_activity_description` is invoked for the
unmatched business as well (the call sits inside the loop, before the name
match), so the AI call list has both names, not just the matched one; and
two different AI failures yield two different degradation strings, so the
fallback is not one fixed string. -/
theorem activity_detail_ai_claim_counterexample :
    ((activity_detail "alpha%20park" (some demoCoords) ⟨200, [demoBiz1, demoBiz2]⟩
        (fun _ => AIResult.err "timeout")).map DetailActivity.name =
      some "Alpha Park") ∧
    activity_detail_ai_calls (some demoCoords) ⟨200, [demoBiz1, demoBiz2]⟩ =
      ["Alpha Park", "Beta Trail"] ∧
    generate_activity_description (AIResult.err "timeout") ≠
      generate_activity_description (AIResult.err "connection refused") := by
  refine ⟨rfl, rfl, ?_⟩
  decide

/-- Claim C9 amended: on the detail page every fetched business (matched or
not) requests an AI-generated description keyed by its name, and when the
AI call fails the description degrades to the string
 "Description unavailable: " followed by the exception text — the detail
request itself still succeeds (the matched record carries that fallback
text instead of failing). -/
theorem activity_detail_ai_behavior (c : LocationRecord) (bs : List Business)
    (ai : String → AIResult)
    (hlat : truthyNum c.lat = true) (hlon : truthyNum c.lon = true) :
    activity_detail_ai_calls (some c) ⟨200, bs⟩ =
      bs.map (fun b => b.name.getD "Unnamed") ∧
    (∀ msg, generate_activity_description (AIResult.err msg) =
      "Description unavailable: " ++ msg) ∧
    (∀ b, (mapDetail ai b).ai_description =
      generate_activity_description (ai (b.name.getD "Unnamed"))) := by
  refine ⟨?_, fun msg => rfl, fun b => rfl⟩
  simp only [activity_detail_ai_calls, hlat, hlon]
  simp only [and_self, true_and, and_true, if_true, ite_true, reduceIte]

theorem activity_detail_ai_behavior_witness :
    truthyNum demoCoords.lat = true ∧
    activity_detail_ai_calls (some demoCoords) ⟨200, [demoBiz1, demoBiz2]⟩ =
      ["Alpha Park", "Beta Trail"] := by
  refine ⟨by decide, ?_⟩
  exact (activity_detail_ai_behavior demoCoords [demoBiz1, demoBiz2]
    (fun _ => AIResult.err "timeout") (by decide) (by decide)).1

/-- Claim C10: the coordinate presence checks of the activities and detail
pages use Python truthiness, so a stored record with lat = 0 and lon = 0 is
treated as having no coordinates: with city and state present the
city/state backfill path runs (on geocode success the search proceeds with
the backfilled coordinates; on failure the list is empty even when the
search would return businesses), with city/state absent the list is empty,
and the detail page finds nothing — even though `save_location` accepts
the 0/0 pair, returns 200 and stores it. -/
theorem zero_coords_truthiness (cs ss : String) (hc : cs ≠ "") (hs : ss ≠ "")
    (bs : List Business) (t : Option ℚ) (la lo : ℚ)
    (hla : la ≠ 0) (hlo : lo ≠ 0) (nm : String) (ai : String → AIResult)
    (g : GeoResult) (s0 : Option LocationRecord) :
    (save_location (some (JValue.jobj [("lat", JValue.jnum 0), ("lon", JValue.jnum 0)]))
        g s0).1.status = 200 ∧
    (save_location (some (JValue.jobj [("lat", JValue.jnum 0), ("lon", JValue.jnum 0)]))
        g s0).2 =
      some ⟨some 0, some 0, some (reverse_geocode g).1, some (reverse_geocode g).2⟩ ∧
    (activities_page (some ⟨some 0, some 0, some cs, some ss⟩) t
        (some (la, lo)) ⟨200, bs⟩).1 =
      (bs.filter (passesRating t)).map mapActivity ∧
    (activities_page (some ⟨some 0, some 0, some cs, some ss⟩) t
        (some (la, lo)) ⟨200, bs⟩).2 =
      some ⟨some la, some lo, some cs, some ss⟩ ∧
    (activities_page (some ⟨some 0, some 0, some cs, some ss⟩) t
        none ⟨200, bs⟩).1 = [] ∧
    (activities_page (some ⟨some 0, some 0, none, none⟩) t
        none ⟨200, bs⟩).1 = [] ∧
    activity_detail nm (some ⟨some 0, some 0, some cs, some ss⟩)
        ⟨200, bs⟩ ai = none := by
  have h0 : truthyNum (some (0 : ℚ)) = false := by simp [truthyNum]
  have hcs : truthyStr (some cs) = true := by simp [truthyStr, hc]
  have hss : truthyStr (some ss) = true := by simp [truthyStr, hs]
  have hla2 : truthyNum (some la) = true := by simp [truthyNum, hla]
  have hlo2 : truthyNum (some lo) = true := by simp [truthyNum, hlo]
  have hpage : activities_page (some ⟨some 0, some 0, some cs, some ss⟩) t
      (some (la, lo)) ⟨200, bs⟩ =
      ((bs.filter (passesRating t)).map mapActivity,
       some ⟨some la, some lo, some cs, some ss⟩) := by
    simp only [activities_page, backfillStep, h0, hcs, hss, hla2, hlo2,
      Bool.false_eq_true, eq_self_iff_true, and_self, not_false_eq_true,
      true_and, and_true, if_true, ite_true, reduceIte]
    rw [filterMap_guard_eq (passesRating t) mapActivity bs]
  refine ⟨rfl, rfl, ?_, ?_, ?_, ?_, ?_⟩
  · rw [hpage]
  · rw [hpage]
  · simp [activities_page, backfillStep, h0, hcs, hss]
  · simp [activities_page, backfillStep, h0, truthyStr]
  · simp [activity_detail, h0]

theorem zero_coords_truthiness_witness :
    ("Denver" : String) ≠ "" ∧ ("CO" : String) ≠ "" ∧
    (39 : ℚ) ≠ 0 ∧ (-104 : ℚ) ≠ 0 ∧
    (activities_page (some ⟨some 0, some 0, some "Denver", some "CO"⟩) none
        none ⟨200, [demoBiz1]⟩).1 = [] ∧
    activity_detail "alpha%20park"
        (some ⟨some 0, some 0, some "Denver", some "CO"⟩)
        ⟨200, [demoBiz1]⟩ (fun _ => AIResult.err "x") = none := by
  have h := zero_coords_truthiness "Denver" "CO" (by decide) (by decide)
    [demoBiz1] none 39 (-104) (by decide) (by decide) "alpha%20park"
    (fun _ => AIResult.err "x") GeoResult.err none
  exact ⟨by decide, by decide, by decide, by decide,
    h.2.2.2.2.1, h.2.2.2.2.2.2⟩

end Recreo
